import Mathlib

/-!
# Verification of the ottobot session orchestration plane

A shallow embedding of the TypeScript source of the ottobot repository:
the Redis-backed session registry and port allocators
(`src/shared/session-manager.ts`), the per-session message router
(`src/shared/session-router.ts`), the worker lifecycle handlers
(`src/worker/session-handler.ts`), the container readiness probe
(`src/worker/container-manager.ts`) and the HTTP session routes
(`src/api/routes/sessions.ts`).

Modelling conventions:
* The Redis store is a record of association lists.  A string key maps to a
  value together with an optional absolute expiry instant (`Keyed`); a key is
  *live* at instant `t` when it has a binding whose expiry is `none` or
  greater than `t`.  `SETEX`, `SETNX`, `EXPIRE`, `TTL`, `DEL`, `SADD`, `SREM`,
  `RPUSH`, `LTRIM` are modelled on these lists.
* Time is measured in whole seconds.  The source mixes milliseconds and
  seconds but converts between the two by exact factors of 1000
  (`timeoutMs / 1000` where `timeoutMs` is `seconds * 1000`), so the model
  works with the second-valued quantities directly.
* JSON serialisation of a session record is treated as the identity: the
  store holds the parsed record.
* Every `await` is a suspension point; operations take the instant at which
  they run as an explicit argument.  `updateSession` takes two instants (the
  read of the record and the later TTL read / write) because its skip-write
  branch is reachable only when the key expires between the two.
-/

namespace Ottobot

/-- A stored value together with its optional absolute expiry instant
(seconds).  `none` means the key has no TTL. -/
structure Keyed (α : Type) where
  val : α
  expiresAt : Option Nat
deriving Repr, DecidableEq

/-- Whether a binding is live at instant `now`. -/
def Keyed.live (now : Nat) (k : Keyed α) : Bool :=
  match k.expiresAt with
  | none => true
  | some e => now < e

/-- First binding for a key in an association list (Redis has at most one). -/
def kvGet [DecidableEq κ] (l : List (κ × α)) (k : κ) : Option α :=
  match l with
  | [] => none
  | (k', v) :: rest => if k' = k then some v else kvGet rest k

/-- Replace the binding for a key, appending a fresh binding at the end when
the key is absent. -/
def kvSet [DecidableEq κ] (l : List (κ × α)) (k : κ) (v : α) : List (κ × α) :=
  match l with
  | [] => [(k, v)]
  | (k', v') :: rest => if k' = k then (k, v) :: rest else (k', v') :: kvSet rest k v

/-- Remove every binding for a key (Redis `DEL`). -/
def kvDel [DecidableEq κ] (l : List (κ × α)) (k : κ) : List (κ × α) :=
  match l with
  | [] => []
  | (k', v) :: rest => if k' = k then kvDel rest k else (k', v) :: kvDel rest k

/-- The live value bound to a key at instant `now`, if any. -/
def kvLive [DecidableEq κ] (now : Nat) (l : List (κ × Keyed α)) (k : κ) : Option α :=
  match kvGet l k with
  | none => none
  | some kd => if kd.live now then some kd.val else none

/-- Redis `TTL`: `-2` when the key is absent or expired, `-1` when it has no
expiry, otherwise the remaining seconds. -/
def ttlOf [DecidableEq κ] (now : Nat) (l : List (κ × Keyed α)) (k : κ) : Int :=
  match kvGet l k with
  | none => -2
  | some kd =>
    match kd.expiresAt with
    | none => -1
    | some e => if now < e then (e : Int) - (now : Int) else -2

/-- Redis `SADD` on a set modelled as a duplicate-free list. -/
def sAdd (s : List String) (x : String) : List String :=
  if x ∈ s then s else x :: s

/-- Redis `SREM`. -/
def sRem (s : List String) (x : String) : List String :=
  match s with
  | [] => []
  | y :: rest => if y = x then sRem rest x else y :: sRem rest x

/-- Keep the last `n` entries of a list (Redis `LTRIM key -n -1`). -/
def lastN (n : Nat) (l : List α) : List α :=
  l.drop (l.length - n)

/-! ## Data model (`src/shared/types.ts`) -/

/-- `SessionStatus` from `types.ts`. -/
inductive SessionStatus
  | initializing
  | ready
  | running
  | terminating
  | terminated
  | sessionError
deriving Repr, DecidableEq

/-- The `Session` record.  `mcpPort` is written by the worker handler
(`updateSession(sessionId, { containerId, mcpPort })`) and read back by no
typed consumer; it is carried on the stored JSON record at runtime. -/
structure Session where
  id : String
  status : SessionStatus
  initialPrompt : String
  containerId : Option String := none
  vncPort : Option Nat := none
  mcpPort : Option Nat := none
  workerId : Option String := none
  createdAt : Nat := 0
  updatedAt : Nat := 0
  expiresAt : Nat := 0
  errorMsg : Option String := none
deriving Repr, DecidableEq

/-- `ChatMessage.type` from `types.ts`. -/
inductive MsgType
  | userPrompt
  | agentResponse
  | agentThinking
  | agentAction
  | systemUpdate
  | downloadReady
  | errorEvent
deriving Repr, DecidableEq

/-- `ChatMessage.metadata` (only the fields the modelled code writes). -/
structure MsgMetadata where
  vncReady : Option Bool := none
  errorMsg : Option String := none
deriving Repr, DecidableEq

/-- `ChatMessage` from `types.ts`. -/
structure ChatMessage where
  type : MsgType
  content : String
  timestamp : Nat
  metadata : Option MsgMetadata := none
deriving Repr, DecidableEq

/-- One entry of `session:logs:<id>` as written by `addSessionLog`. -/
structure LogEntry where
  timestamp : Nat
  level : String
  message : String
deriving Repr, DecidableEq

/-- Payload of a `create_session` job as enqueued by `POST /session`. -/
structure CreateJobData where
  initialPrompt : String
  environment : String
  vncPort : Option Nat := none
deriving Repr, DecidableEq

/-- Payload of a `terminate_session` job.  The job payload is untyped
(`data: any`) in the source, so fields a producer does not set are
`undefined`, modelled as `none`. -/
structure TerminateJobData where
  containerId : Option String := none
  vncPort : Option Nat := none
  mcpPort : Option Nat := none
deriving Repr, DecidableEq

/-- A job sitting in the BullMQ queue. -/
inductive QueuedJob
  | createJob (sessionId : String) (data : CreateJobData) (priority : Nat)
  | terminateJob (sessionId : String) (data : TerminateJobData) (priority : Nat)
deriving Repr, DecidableEq

/-- Configuration (`src/shared/config.ts`), second-valued.
`CONFIG.session.timeout` is stored in milliseconds in the source and divided
back to seconds at every use modelled here. -/
structure Config where
  sessionTimeout : Nat := 3600
  vncPortRangeStart : Nat := 6080
  vncPortRangeEnd : Nat := 6200
  mcpPortRangeStart : Nat := 8080
  mcpPortRangeEnd : Nat := 8200
deriving Repr, DecidableEq

/-- The coordination-store state: one field per key family of §6.4. -/
structure Store where
  /-- `session:<id>` → parsed record, with expiry (always set via `SETEX`). -/
  sessions : List (String × Keyed Session) := []
  /-- `sessions:index` set. -/
  index : List String := []
  /-- `sessions:by-worker:<wid>` sets. -/
  byWorker : List (String × List String) := []
  /-- `session:messages:<id>` lists. -/
  messages : List (String × Keyed (List ChatMessage)) := []
  /-- `session:logs:<id>` lists. -/
  logs : List (String × Keyed (List LogEntry)) := []
  /-- `session:context:<id>` blobs. -/
  contextBlobs : List (String × Keyed String) := []
  /-- `vnc:port:<p>` keys (the desktop-port allocator). -/
  vncPorts : List (Nat × Keyed Unit) := []
  /-- `mcp:port:<p>` keys (the tool-port allocator). -/
  mcpPorts : List (Nat × Keyed Unit) := []
  /-- `metrics:total_sessions` counter. -/
  totalSessions : Nat := 0
  /-- Jobs added to the session queue. -/
  queued : List QueuedJob := []
deriving Repr, DecidableEq

/-- Key of the session record. -/
def sessionKey (id : String) : String := "session:" ++ id

/-- Key of the per-session message list. -/
def messagesKey (id : String) : String := "session:messages:" ++ id

/-- Key of the per-session log list. -/
def logsKey (id : String) : String := "session:logs:" ++ id

/-- Key of the per-session context blob. -/
def contextKey (id : String) : String := "session:context:" ++ id

/-! ## Session registry and port allocators (`src/shared/session-manager.ts`) -/

/-- `Partial<Session>` as passed to `updateSession`: only the fields some
caller actually supplies.  A `some` field overrides the stored one
(`{...session, ...updates}`); optional record fields are never patched back
to absent by any caller. -/
structure SessionPatch where
  status : Option SessionStatus := none
  containerId : Option String := none
  vncPort : Option Nat := none
  mcpPort : Option Nat := none
  workerId : Option String := none
  errorMsg : Option String := none
deriving Repr, DecidableEq

/-- `{ ...session, ...updates, updatedAt: new Date() }`. -/
def applyPatch (s : Session) (p : SessionPatch) (now : Nat) : Session :=
  { s with
    status := p.status.getD s.status
    containerId := (p.containerId.map some).getD s.containerId
    vncPort := (p.vncPort.map some).getD s.vncPort
    mcpPort := (p.mcpPort.map some).getD s.mcpPort
    workerId := (p.workerId.map some).getD s.workerId
    errorMsg := (p.errorMsg.map some).getD s.errorMsg
    updatedAt := now }

namespace SessionManager

/-- `SessionManager.createSession`: build the record, `SETEX` it under
`session:<id>` with TTL `timeoutMs / 1000`, `SADD` the id to the index.
`timeoutMs = (timeout || CONFIG.session.timeout / 1000) * 1000`; in seconds
that is `timeout.getD cfg.sessionTimeout`.  The fresh `nanoid` is passed in
as `sessionId`. -/
def createSession (now : Nat) (cfg : Config) (sessionId : String)
    (initialPrompt : String) (timeout : Option Nat) (st : Store) :
    Session × Store :=
  let ttlSecs := timeout.getD cfg.sessionTimeout
  let session : Session :=
    { id := sessionId
      status := .initializing
      initialPrompt := initialPrompt
      createdAt := now
      updatedAt := now
      expiresAt := now + ttlSecs }
  (session,
   { st with
     sessions := kvSet st.sessions (sessionKey sessionId)
       ⟨session, some (now + ttlSecs)⟩
     index := sAdd st.index sessionId })

/-- `SessionManager.getSession`: `GET session:<id>` and parse. -/
def getSession (now : Nat) (st : Store) (sessionId : String) : Option Session :=
  kvLive now st.sessions (sessionKey sessionId)

/-- `SessionManager.updateSession`.  `tRead` is the instant of the
`getSession` read, `now` the instant of the rest of the body (`new Date()`,
the `TTL` read, the conditional `SETEX` and the worker-set maintenance);
the key may expire between the two awaits. -/
def updateSession (tRead now : Nat) (sessionId : String) (patch : SessionPatch)
    (st : Store) : Option Session × Store :=
  match getSession tRead st sessionId with
  | none => (none, st)
  | some session =>
    let updatedSession := applyPatch session patch now
    let ttl := ttlOf now st.sessions (sessionKey sessionId)
    let st1 :=
      if 0 < ttl then
        { st with
          sessions := kvSet st.sessions (sessionKey sessionId)
            ⟨updatedSession, some (now + ttl.toNat)⟩ }
      else st
    let st2 :=
      match patch.workerId with
      | none => st1
      | some w =>
        if some w = session.workerId then st1
        else
          let afterRem :=
            match session.workerId with
            | some old =>
              match kvGet st1.byWorker old with
              | some members => kvSet st1.byWorker old (sRem members sessionId)
              | none => st1.byWorker
            | none => st1.byWorker
          { st1 with
            byWorker := kvSet afterRem w
              (sAdd ((kvGet afterRem w).getD []) sessionId) }
    (some updatedSession, st2)

/-- `SessionManager.updateSessionStatus`: convenience wrapper. -/
def updateSessionStatus (tRead now : Nat) (sessionId : String)
    (status : SessionStatus) (errorMsg : Option String) (st : Store) : Store :=
  (updateSession tRead now sessionId
    { status := some status, errorMsg := errorMsg } st).2

/-- `SessionManager.deleteSession`: read the record; when present, `DEL` the
record key, `SREM` the index, `SREM` the owning worker's set, and `DEL` the
messages, logs and context keys. -/
def deleteSession (now : Nat) (sessionId : String) (st : Store) : Bool × Store :=
  match getSession now st sessionId with
  | none => (false, st)
  | some session =>
    let byWorker' :=
      match session.workerId with
      | some w =>
        match kvGet st.byWorker w with
        | some members => kvSet st.byWorker w (sRem members sessionId)
        | none => st.byWorker
      | none => st.byWorker
    (true,
     { st with
       sessions := kvDel st.sessions (sessionKey sessionId)
       index := sRem st.index sessionId
       byWorker := byWorker'
       messages := kvDel st.messages (messagesKey sessionId)
       logs := kvDel st.logs (logsKey sessionId)
       contextBlobs := kvDel st.contextBlobs (contextKey sessionId) })

/-- `RPUSH` on a possibly expired key: an expired key is absent, so the push
starts a fresh persistent list; a live key keeps its expiry. -/
def rpushKeyed (now : Nat) (l : List (String × Keyed (List α))) (k : String)
    (x : α) : List (String × Keyed (List α)) :=
  match kvGet l k with
  | some kd =>
    if kd.live now then kvSet l k ⟨kd.val ++ [x], kd.expiresAt⟩
    else kvSet l k ⟨[x], none⟩
  | none => kvSet l k ⟨[x], none⟩

/-- `EXPIRE key ttl` (only called with positive `ttl`). -/
def expireKeyed (now : Nat) (l : List (String × Keyed α)) (k : String)
    (ttl : Nat) : List (String × Keyed α) :=
  match kvGet l k with
  | some kd => if kd.live now then kvSet l k ⟨kd.val, some (now + ttl)⟩ else l
  | none => l

/-- `SessionManager.addSessionMessage`: `RPUSH` the serialised message, then
re-align the list's TTL to the session record's residual TTL when that is
positive. -/
def addSessionMessage (now : Nat) (sessionId : String) (message : ChatMessage)
    (st : Store) : Store :=
  let k := messagesKey sessionId
  let pushed := rpushKeyed now st.messages k message
  let ttl := ttlOf now st.sessions (sessionKey sessionId)
  let aligned := if 0 < ttl then expireKeyed now pushed k ttl.toNat else pushed
  { st with messages := aligned }

/-- `SessionManager.addSessionLog`: `RPUSH` the entry, `LTRIM` to the last
1000, then re-align the TTL as for messages. -/
def addSessionLog (now : Nat) (sessionId : String) (level message : String)
    (st : Store) : Store :=
  let k := logsKey sessionId
  let entry : LogEntry := { timestamp := now, level := level, message := message }
  let pushed := rpushKeyed now st.logs k entry
  let trimmed :=
    match kvGet pushed k with
    | some kd => kvSet pushed k ⟨lastN 1000 kd.val, kd.expiresAt⟩
    | none => pushed
  let ttl := ttlOf now st.sessions (sessionKey sessionId)
  let aligned := if 0 < ttl then expireKeyed now trimmed k ttl.toNat else trimmed
  { st with logs := aligned }

/-- The `for (let port = start; port <= end; port++)` scan: `SETNX` each key
in turn; on the first success `EXPIRE` it to 7200 s and return the port. -/
def scanAllocate (now : Nat) (ports : List (Nat × Keyed Unit)) :
    List Nat → Option Nat × List (Nat × Keyed Unit)
  | [] => (none, ports)
  | p :: rest =>
    if (kvLive now ports p).isSome then scanAllocate now ports rest
    else (some p, kvSet ports p ⟨(), some (now + 7200)⟩)

/-- The candidate ports `start, start+1, …, end` (empty when `end < start`). -/
def portRange (start stop : Nat) : List Nat :=
  List.range' start (stop + 1 - start)

/-- `SessionManager.allocateVncPort`. -/
def allocateVncPort (now : Nat) (cfg : Config) (st : Store) :
    Option Nat × Store :=
  let r := scanAllocate now st.vncPorts
    (portRange cfg.vncPortRangeStart cfg.vncPortRangeEnd)
  (r.1, { st with vncPorts := r.2 })

/-- `SessionManager.releaseVncPort`: `DEL vnc:port:<p>`. -/
def releaseVncPort (port : Nat) (st : Store) : Store :=
  { st with vncPorts := kvDel st.vncPorts port }

/-- `SessionManager.allocateMcpPort`. -/
def allocateMcpPort (now : Nat) (cfg : Config) (st : Store) :
    Option Nat × Store :=
  let r := scanAllocate now st.mcpPorts
    (portRange cfg.mcpPortRangeStart cfg.mcpPortRangeEnd)
  (r.1, { st with mcpPorts := r.2 })

/-- `SessionManager.releaseMcpPort`: `DEL mcp:port:<p>`. -/
def releaseMcpPort (port : Nat) (st : Store) : Store :=
  { st with mcpPorts := kvDel st.mcpPorts port }

end SessionManager

/-! ## Message fabric (`src/shared/session-router.ts`)

Callbacks are identified by natural numbers; a per-session subscriber set is
an insertion-ordered duplicate-free list (a JS `Set` iterates in insertion
order).  `redisSubscriptions` holds the channels the process's dedicated
subscriber connection (`subClient`) is subscribed to.  Per the store's
pub/sub contract (§4.1 of the design: `publish(channel, bytes)` delivers the
payload to every subscriber of the channel), a successful
`pubClient.publish` is also delivered back to this process's own `subClient`
whenever it is subscribed to the channel, firing the `message` handler that
`SessionRouter` installs at module load. -/

namespace SessionRouter

/-- Per-process `SessionRouter` static state. -/
structure RouterState where
  subscribers : List (String × List Nat) := []
  redisSubscriptions : List String := []
deriving Repr, DecidableEq

/-- The channel name used by both `publish` and `startListening`. -/
def channelOf (sessionId : String) : String :=
  "session:" ++ sessionId ++ ":messages"

/-- `SessionRouter.subscribe`: on the first subscriber for the session,
create the set and subscribe `subClient` to the channel; then add the
callback. -/
def subscribe (sessionId : String) (cb : Nat) (rs : RouterState) : RouterState :=
  let rs1 :=
    if (kvGet rs.subscribers sessionId).isSome then rs
    else
      { subscribers := kvSet rs.subscribers sessionId []
        redisSubscriptions :=
          if channelOf sessionId ∈ rs.redisSubscriptions then
            rs.redisSubscriptions
          else channelOf sessionId :: rs.redisSubscriptions }
  let cur := (kvGet rs1.subscribers sessionId).getD []
  { rs1 with
    subscribers := kvSet rs1.subscribers sessionId
      (if cb ∈ cur then cur else cur ++ [cb]) }

/-- The body of `SessionRouter.publish`: first `await pubClient.publish`,
then the direct local dispatch.  `transportOk` is whether the store publish
resolves.  Result: the callbacks invoked by the `publish` call itself, in
order, and whether `publish` rethrows to its caller.  When the transport
rejects, the `catch` logs and rethrows before the local dispatch is
reached. -/
def publishLocalDeliveries (transportOk : Bool) (rs : RouterState)
    (sessionId : String) : List Nat × Bool :=
  if transportOk then ((kvGet rs.subscribers sessionId).getD [], false)
  else ([], true)

/-- The deliveries performed by the `message` handler installed at module
load when the store echoes a successfully published payload back to this
process: it parses the message and dispatches it to every local subscriber
of the session, with no filtering of locally originated events. -/
def echoDeliveries (transportOk : Bool) (rs : RouterState)
    (sessionId : String) : List Nat :=
  if transportOk ∧ channelOf sessionId ∈ rs.redisSubscriptions then
    (kvGet rs.subscribers sessionId).getD []
  else []

/-- Every invocation of a local callback attributable to one `publish` call:
the direct dispatch inside `publish` followed by the store's echo of the
same event back to this process. -/
def totalLocalDeliveries (transportOk : Bool) (rs : RouterState)
    (sessionId : String) : List Nat :=
  (publishLocalDeliveries transportOk rs sessionId).1
    ++ echoDeliveries transportOk rs sessionId

end SessionRouter

/-! ## Container readiness probe (`src/worker/container-manager.ts`) -/

namespace ContainerManager

/-- Outcome of the `fetch` HEAD request to
`http://localhost:<vncPort>/vnc.html` on one attempt. -/
inductive FetchOutcome
  | respond (code : Nat)
  | netError
deriving Repr, DecidableEq

/-- What one iteration of the `waitForVnc` loop observes: the container
status probe and, when the container is running, the fetch outcome. -/
structure Probe where
  containerStatus : String
  fetch : FetchOutcome
deriving Repr, DecidableEq

/-- One loop iteration succeeds when the container status is `running` and
the HEAD request yields any HTTP response ("If we get any response (even
404), websockify is responding"); a non-running status or a thrown fetch is
swallowed by the outer `catch` and the loop retries after 1 s. -/
def attemptOk (pr : Probe) : Bool :=
  pr.containerStatus = "running" &&
    match pr.fetch with
    | .respond _ => true
    | .netError => false

/-- The `for (let i = 0; i < maxRetries; i++)` loop. -/
def waitLoop (probes : Nat → Probe) : Nat → Nat → Except String Unit
  | 0, _ => .error "VNC did not become ready in time"
  | fuel + 1, i =>
    if attemptOk (probes i) then .ok () else waitLoop probes fuel (i + 1)

/-- `ContainerManager.waitForVnc` with its default retry budget of 30
attempts at 1-second poll intervals; `probes i` is what attempt `i`
observes. -/
def waitForVnc (probes : Nat → Probe) (maxRetries : Nat := 30) :
    Except String Unit :=
  waitLoop probes maxRetries 0

end ContainerManager

/-! ## Worker lifecycle handlers (`src/worker/session-handler.ts`)

The world couples the store with the container runtime and this worker's
in-memory agent table.  The sandbox runtime and the agent are external
collaborators: container create/start/stop/remove are modelled by their
effect on the set of existing container ids (with the outcome of the Docker
create call a parameter), and agent spawn/shutdown by membership in
`activeAgents`; the events an agent itself emits are outside the modelled
core. -/

/-- A worker's view of the world. -/
structure World where
  store : Store := {}
  /-- Ids of containers existing in the Docker runtime. -/
  containers : List String := []
  /-- `SessionHandler.activeAgents` keys on this worker. -/
  activeAgents : List String := []
  /-- Events published through `SessionRouter.publish`, in call order. -/
  published : List (String × ChatMessage) := []
deriving Repr, DecidableEq

namespace SessionHandler

open SessionManager

/-- The `catch` block of `SessionHandler.createSession`: set status `error`,
re-read the record, stop+remove its container if one was persisted, release
the job's VNC port and the locally allocated MCP port, and delete the
session record entirely.  `mcpPort` is the handler-local variable at the
moment of failure. -/
def createSessionCleanup (now : Nat) (sessionId : String) (errorMsg : String)
    (jobVncPort : Option Nat) (mcpPort : Option Nat) (w : World) : World :=
  let st := updateSessionStatus now now sessionId .sessionError (some errorMsg) w.store
  let sessionOpt := getSession now st sessionId
  let containers' :=
    match sessionOpt with
    | some s =>
      match s.containerId with
      | some c => w.containers.filter (fun x => ¬ x = c)
      | none => w.containers
    | none => w.containers
  let st :=
    match jobVncPort with
    | some p => releaseVncPort p st
    | none => st
  let st :=
    match mcpPort with
    | some p => releaseMcpPort p st
    | none => st
  let st := (deleteSession now sessionId st).2
  { w with store := st, containers := containers' }

/-- `SessionHandler.createSession`.  `workerId` is this worker's id,
`freshContainerId` the id Docker would assign to a newly created container,
`dockerCreateOk` whether the Docker create call succeeds (it rejects, for
example, a duplicate container name `ottobot-<sessionId>`), and `vncReady`
whether `waitForVnc` succeeds within its budget.  Returns whether the job
handler completed without throwing, and the resulting world.  The handler
performs no re-read of the session status and no check of an already-set
container id before allocating and creating. -/
def createSession (now : Nat) (cfg : Config) (workerId : String)
    (sessionId : String) (data : CreateJobData) (freshContainerId : String)
    (dockerCreateOk : Bool) (vncReady : Bool) (w : World) : Bool × World :=
  let st := (updateSession now now sessionId { workerId := some workerId } w.store).2
  let st := addSessionLog now sessionId "info" "Allocating MCP port..." st
  match SessionManager.allocateMcpPort now cfg st with
  | (none, st) =>
    (false, createSessionCleanup now sessionId "No available MCP ports"
      data.vncPort none { w with store := st })
  | (some mcpPort, st) =>
    let st := addSessionLog now sessionId "info"
      ("Allocated MCP port, creating container...") st
    if dockerCreateOk then
      let w1 : World :=
        { w with store := st, containers := freshContainerId :: w.containers }
      let st := (updateSession now now sessionId
        { containerId := some freshContainerId, mcpPort := some mcpPort } w1.store).2
      let st := addSessionLog now sessionId "info" "Starting container..." st
      let st := addSessionLog now sessionId "info" "Waiting for VNC to be ready..." st
      if vncReady then
        let st := addSessionLog now sessionId "info" "Starting AI agent..." st
        let w2 : World := { w1 with
          store := st, activeAgents := sessionId :: w1.activeAgents }
        let st := updateSessionStatus now now sessionId .ready none w2.store
        let st := addSessionLog now sessionId "info" "Session ready" st
        let readyMsg : ChatMessage :=
          { type := .systemUpdate
            content := "Session is ready. You can start chatting!"
            timestamp := now
            metadata := some { vncReady := some true } }
        (true, { w2 with store := st, published := w2.published ++ [(sessionId, readyMsg)] })
      else
        (false, createSessionCleanup now sessionId
          "VNC did not become ready in time" data.vncPort (some mcpPort)
          { w1 with store := st })
    else
      (false, createSessionCleanup now sessionId "Docker create failed"
        data.vncPort (some mcpPort) { w with store := st })

/-- `SessionHandler.terminateSession`: log, shut down the local agent if
present, stop and remove the container named in the job payload, release the
VNC and MCP ports named in the job payload, set status `terminated`.  (The
5-minute delayed `deleteSession` runs after the handler completes and is not
part of it.) -/
def terminateSession (now : Nat) (sessionId : String) (data : TerminateJobData)
    (w : World) : World :=
  let st := addSessionLog now sessionId "info" "Terminating session..." w.store
  let agents' := w.activeAgents.filter (fun x => ¬ x = sessionId)
  let containers' :=
    match data.containerId with
    | some c => w.containers.filter (fun x => ¬ x = c)
    | none => w.containers
  let st :=
    match data.vncPort with
    | some p => releaseVncPort p st
    | none => st
  let st :=
    match data.mcpPort with
    | some p => releaseMcpPort p st
    | none => st
  let st := updateSessionStatus now now sessionId .terminated none st
  { w with store := st, containers := containers', activeAgents := agents' }

end SessionHandler

/-! ## HTTP session routes (`src/api/routes/sessions.ts`) -/

/-- Body of `POST /session` after schema validation. -/
structure CreateSessionRequest where
  initialPrompt : String
  timeout : Option Nat := none
  environment : Option String := none
deriving Repr, DecidableEq

/-- The `SessionResponse` payload of a 201. -/
structure SessionResponse where
  sessionId : String
  status : SessionStatus
  vncUrl : String
  chatUrl : String
  createdAt : Nat
  expiresAt : Nat
deriving Repr, DecidableEq

/-- Outcome of `POST /session`. -/
inductive PostOutcome
  | created (resp : SessionResponse)
  | unavailable (errorName message : String)
deriving Repr, DecidableEq

/-- Outcome of `DELETE /session/:id`. -/
inductive DeleteOutcome
  | notFound
  | accepted (sessionId : String)
deriving Repr, DecidableEq

namespace Routes

open SessionManager

/-- The `POST /session` handler: create the record, allocate a desktop
port; on exhaustion delete the just-created record and answer 503; otherwise
persist the port, enqueue the create job at priority 1, bump the metrics
counter and answer 201. -/
def postSession (now : Nat) (cfg : Config) (apiPort : Nat)
    (freshId : String) (body : CreateSessionRequest) (st : Store) :
    PostOutcome × Store :=
  let created := createSession now cfg freshId body.initialPrompt body.timeout st
  let session := created.1
  let st1 := created.2
  match allocateVncPort now cfg st1 with
  | (none, st2) =>
    let st3 := (deleteSession now session.id st2).2
    (.unavailable "Service Unavailable" "No available VNC ports", st3)
  | (some vncPort, st2) =>
    let st3 := (updateSession now now session.id { vncPort := some vncPort } st2).2
    let job : QueuedJob := .createJob session.id
      { initialPrompt := body.initialPrompt
        environment := body.environment.getD "full-stack"
        vncPort := some vncPort } 1
    let st4 := { st3 with
      queued := st3.queued ++ [job]
      totalSessions := st3.totalSessions + 1 }
    (.created
      { sessionId := session.id
        status := session.status
        vncUrl := "http://localhost:" ++ toString vncPort ++ "/vnc.html"
        chatUrl := "ws://localhost:" ++ toString apiPort ++ "/session/"
          ++ session.id ++ "/chat"
        createdAt := session.createdAt
        expiresAt := session.expiresAt }, st4)

/-- The `DELETE /session/:id` handler: 404 when the record is gone;
otherwise set status `terminating` and enqueue a terminate job at
priority 2.  The job payload carries only `containerId` and `vncPort` —
the handler does not put the session's `mcpPort` into it. -/
def deleteRoute (now : Nat) (sessionId : String) (st : Store) :
    DeleteOutcome × Store :=
  match getSession now st sessionId with
  | none => (.notFound, st)
  | some session =>
    let st1 := updateSessionStatus now now sessionId .terminating none st
    let job : QueuedJob := .terminateJob sessionId
      { containerId := session.containerId
        vncPort := session.vncPort } 2
    (.accepted sessionId, { st1 with queued := st1.queued ++ [job] })

end Routes

/-! ## Basic lemmas about the store primitives -/

theorem kvGet_kvSet_self [DecidableEq κ] (l : List (κ × α)) (k : κ) (v : α) :
    kvGet (kvSet l k v) k = some v := by
  induction l with
  | nil => simp [kvGet, kvSet]
  | cons hd tl ih =>
    by_cases h : hd.1 = k
    · simp [kvGet, kvSet, h]
    · simpa [kvGet, kvSet, h] using ih

theorem kvDel_of_get_none [DecidableEq κ] (l : List (κ × α)) (k : κ)
    (h : kvGet l k = none) : kvDel l k = l := by
  induction l with
  | nil => rfl
  | cons hd tl ih =>
    obtain ⟨k', v⟩ := hd
    by_cases hk : k' = k
    · simp [kvGet, hk] at h
    · simp only [kvGet, if_neg hk] at h
      simp [kvDel, if_neg hk, ih h]

theorem kvDel_kvSet_of_get_none [DecidableEq κ] (l : List (κ × α)) (k : κ)
    (v : α) (h : kvGet l k = none) : kvDel (kvSet l k v) k = kvDel l k := by
  induction l with
  | nil => simp [kvSet, kvDel]
  | cons hd tl ih =>
    obtain ⟨k', v'⟩ := hd
    by_cases hk : k' = k
    · simp [kvGet, hk] at h
    · simp only [kvGet, if_neg hk] at h
      simp [kvSet, kvDel, if_neg hk, ih h]

theorem sRem_of_not_mem (s : List String) (x : String) (h : x ∉ s) :
    sRem s x = s := by
  induction s with
  | nil => rfl
  | cons hd tl ih =>
    have hx : ¬ hd = x := fun he => h (by simp [he])
    have htl : x ∉ tl := fun ht => h (List.mem_cons_of_mem _ ht)
    simp [sRem, if_neg hx, ih htl]

theorem sRem_sAdd_of_not_mem (s : List String) (x : String) (h : x ∉ s) :
    sRem (sAdd s x) x = s := by
  simp [sAdd, h, sRem, sRem_of_not_mem s x h]

theorem mem_sAdd_self (s : List String) (x : String) : x ∈ sAdd s x := by
  by_cases h : x ∈ s <;> simp [sAdd, h]

/-! ## Lemmas about the port-allocation scan -/

namespace SessionManager

theorem scanAllocate_none_iff (now : Nat) (ports : List (Nat × Keyed Unit))
    (cs : List Nat) :
    (scanAllocate now ports cs).1 = none ↔
      ∀ p ∈ cs, (kvLive now ports p).isSome := by
  induction cs with
  | nil => simp [scanAllocate]
  | cons hd tl ih =>
    by_cases h : (kvLive now ports hd).isSome
    · simp [scanAllocate, h, ih]
    · simp [scanAllocate, h]

theorem scanAllocate_none_snd (now : Nat) (ports : List (Nat × Keyed Unit))
    (cs : List Nat) (h : (scanAllocate now ports cs).1 = none) :
    (scanAllocate now ports cs).2 = ports := by
  induction cs with
  | nil => simp [scanAllocate]
  | cons hd tl ih =>
    by_cases hl : (kvLive now ports hd).isSome
    · simp only [scanAllocate, hl, if_pos] at h ⊢
      exact ih h
    · simp [scanAllocate, hl] at h

theorem scanAllocate_cons (now : Nat) (ports : List (Nat × Keyed Unit))
    (p : Nat) (rest : List Nat) :
    scanAllocate now ports (p :: rest) =
      if (kvLive now ports p).isSome then scanAllocate now ports rest
      else (some p, kvSet ports p ⟨(), some (now + 7200)⟩) := by
  rfl

theorem scanAllocate_range_some (now : Nat) (ports : List (Nat × Keyed Unit)) :
    ∀ n lo p, (scanAllocate now ports (List.range' lo n)).1 = some p →
      lo ≤ p ∧ p < lo + n ∧ (kvLive now ports p).isNone ∧
      (∀ q, lo ≤ q → q < p → (kvLive now ports q).isSome) ∧
      (scanAllocate now ports (List.range' lo n)).2 =
        kvSet ports p ⟨(), some (now + 7200)⟩ := by
  intro n
  induction n with
  | zero => intro lo p h; simp [scanAllocate, List.range'] at h
  | succ m ih =>
    intro lo p h
    have hrange : List.range' lo (m + 1) = lo :: List.range' (lo + 1) m := rfl
    rw [hrange, scanAllocate_cons] at h ⊢
    by_cases hl : (kvLive now ports lo).isSome
    · rw [if_pos hl] at h ⊢
      obtain ⟨h1, h2, h3, h4, h5⟩ := ih (lo + 1) p h
      refine ⟨by omega, by omega, h3, ?_, h5⟩
      intro q hq1 hq2
      rcases Nat.lt_or_ge q (lo + 1) with hq | hq
      · have hql : q = lo := by omega
        rw [hql]; exact hl
      · exact h4 q hq hq2
    · rw [if_neg hl] at h ⊢
      have hp : lo = p := by simpa using h
      subst hp
      have hnone : kvLive now ports lo = none :=
        Option.not_isSome_iff_eq_none.mp hl
      refine ⟨le_refl _, by omega, by simp [hnone], ?_, rfl⟩
      intro q hq1 hq2; omega

end SessionManager

/-! ## Lemmas about the readiness-probe loop -/

namespace ContainerManager

theorem waitLoop_succ (probes : Nat → Probe) (fuel i : Nat) :
    waitLoop probes (fuel + 1) i =
      if attemptOk (probes i) then .ok () else waitLoop probes fuel (i + 1) := by
  rfl

theorem waitLoop_ok_iff (probes : Nat → Probe) :
    ∀ fuel i, waitLoop probes fuel i = .ok () ↔
      ∃ j, j < fuel ∧ attemptOk (probes (i + j)) := by
  intro fuel
  induction fuel with
  | zero => intro i; simp [waitLoop]
  | succ m ih =>
    intro i
    by_cases h : attemptOk (probes i)
    · rw [waitLoop_succ, if_pos h]
      constructor
      · intro _
        exact ⟨0, Nat.succ_pos m, by simpa using h⟩
      · intro _; rfl
    · rw [waitLoop_succ, if_neg h, ih (i + 1)]
      constructor
      · rintro ⟨j, hj, hok⟩
        refine ⟨j + 1, by omega, ?_⟩
        have harith : i + (j + 1) = i + 1 + j := by omega
        rw [harith]; exact hok
      · rintro ⟨j, hj, hok⟩
        cases j with
        | zero => exact absurd (by simpa using hok) h
        | succ j' =>
          refine ⟨j', by omega, ?_⟩
          have harith : i + 1 + j' = i + (j' + 1) := by omega
          rw [harith]; exact hok

theorem waitLoop_error (probes : Nat → Probe) :
    ∀ fuel i, waitLoop probes fuel i ≠ .ok () →
      waitLoop probes fuel i = .error "VNC did not become ready in time" := by
  intro fuel
  induction fuel with
  | zero => intro i _; rfl
  | succ m ih =>
    intro i h
    by_cases hok : attemptOk (probes i)
    · exact absurd (by rw [waitLoop_succ, if_pos hok]) h
    · rw [waitLoop_succ, if_neg hok] at h ⊢
      exact ih (i + 1) h

end ContainerManager

/-! ## The concrete worlds used by the counterexample evaluations -/

/-- A fully provisioned Ready session `s1` owning container `c1`, desktop
port 6080 and tool port 8080, both allocator keys live. -/
def readySession : Session :=
  { id := "s1", status := .ready, initialPrompt := "p",
    containerId := some "c1", vncPort := some 6080, mcpPort := some 8080,
    workerId := some "w1", createdAt := 0, updatedAt := 0, expiresAt := 1000 }

/-- The store holding `readySession` with both port keys live. -/
def readyStore : Store :=
  { sessions := [("session:s1", ⟨readySession, some 1000⟩)]
    index := ["s1"]
    byWorker := [("w1", ["s1"])]
    vncPorts := [(6080, ⟨(), some 7200⟩)]
    mcpPorts := [(8080, ⟨(), some 7200⟩)]
    totalSessions := 1 }

/-- The corresponding world: container `c1` exists. -/
def readyWorld : World :=
  { store := readyStore, containers := ["c1"], activeAgents := ["s1"] }

/-- The create job that originally provisioned `s1`, as redelivered. -/
def redeliveredCreateJob : CreateJobData :=
  { initialPrompt := "p", environment := "full-stack", vncPort := some 6080 }

/-- A session caught mid-create: a frontend terminate has just set its
status to `terminating`; the create job for it is still in flight. -/
def terminatingSession : Session :=
  { id := "s2", status := .terminating, initialPrompt := "p",
    vncPort := some 6080, createdAt := 0, updatedAt := 5, expiresAt := 1000 }

/-- Store for the terminate-races-create scenario. -/
def terminatingStore : Store :=
  { sessions := [("session:s2", ⟨terminatingSession, some 1000⟩)]
    index := ["s2"]
    vncPorts := [(6080, ⟨(), some 7200⟩)]
    totalSessions := 1 }

/-! ## Claims -/

/-- **C1** (code bug).  The claim says a successful run of the terminate
handler releases both the desktop-port and the tool-port allocator keys of a
session whose record holds both ports.  On the code, `DELETE /session/:id`
builds the terminate job payload with only `containerId` and `vncPort`, so
`terminateSession` — which releases only the ports named in the job payload
— releases the desktop port but can never release the tool port: after the
handler completes, `mcp:port:8080` is still a live allocator key while
`vnc:port:6080` is gone. -/
theorem c1_terminate_pipeline_leaves_tool_port :
    (Routes.deleteRoute 10 "s1" readyStore).2.queued =
      [.terminateJob "s1"
        { containerId := some "c1", vncPort := some 6080, mcpPort := none } 2] ∧
    ((SessionHandler.terminateSession 10 "s1"
        { containerId := some "c1", vncPort := some 6080, mcpPort := none }
        { readyWorld with
          store := (Routes.deleteRoute 10 "s1" readyStore).2 }).store.mcpPorts.map
            Prod.fst = [8080] ∧
     (SessionHandler.terminateSession 10 "s1"
        { containerId := some "c1", vncPort := some 6080, mcpPort := none }
        { readyWorld with
          store := (Routes.deleteRoute 10 "s1" readyStore).2 }).store.vncPorts = []) := by
  constructor
  · rfl
  · constructor <;> rfl

/-- **C2** (code bug).  The claim says a local subscriber registered before
`publish` is invoked exactly once per `publish` call, counting the direct
dispatch inside `publish` and the delivery of the same event back through
the store's pub/sub channel.  On the code, registering the first subscriber
also subscribes the process's `subClient` to the session's channel, and the
`message` handler dispatches the echoed event to the local subscribers with
no filtering of locally originated events — so one `publish` invokes the
callback twice. -/
theorem c2_local_subscriber_delivered_twice :
    SessionRouter.totalLocalDeliveries true
      (SessionRouter.subscribe "s1" 0 {}) "s1" = [0, 0] := by
  rfl

/-- **C3** (code bug).  The claim says redelivering a CreateSession job for
a session already Ready is a no-op: the handler observes the already-set
sandbox id, skips creation, and allocates no second tool port.  On the code,
`createSession` checks neither the status nor `containerId`: redelivered for
Ready session `s1` (container `c1`, tool port 8080 held), it allocates a
second tool port 8081 and, when the Docker create call succeeds, a second
container `c2` exists alongside `c1`; when Docker instead rejects the
duplicate name, the failure cleanup removes container `c1` and deletes the
Ready session record outright. -/
theorem c3_create_redelivery_not_noop :
    (((SessionHandler.createSession 10 {} "w1" "s1" redeliveredCreateJob "c2"
        true true readyWorld).2.store.mcpPorts.map Prod.fst = [8080, 8081] ∧
      (SessionHandler.createSession 10 {} "w1" "s1" redeliveredCreateJob "c2"
        true true readyWorld).2.containers = ["c2", "c1"]) ∧
     ((SessionHandler.createSession 10 {} "w1" "s1" redeliveredCreateJob "c2"
        false true readyWorld).2.containers = [] ∧
      SessionManager.getSession 10
        (SessionHandler.createSession 10 {} "w1" "s1" redeliveredCreateJob "c2"
          false true readyWorld).2.store "s1" = none)) := by
  refine ⟨⟨?_, ?_⟩, ?_, ?_⟩ <;> rfl

/-- **C4** (code bug).  The claim says that when a frontend terminate sets
the status to `terminating` while a CreateSession job is in flight, the
create handler observes that status on its next re-read and short-circuits
into cleanup, never setting the session Ready.  On the code, the handler
never consults the status: started against session `s2` whose status is
already `terminating`, it runs to completion and its final
`updateSessionStatus` leaves the session in status `ready`. -/
theorem c4_create_overwrites_terminating_with_ready :
    (SessionHandler.createSession 10 {} "w1" "s2" redeliveredCreateJob "c9"
        true true { store := terminatingStore }).1 = true ∧
    (SessionManager.getSession 10
      (SessionHandler.createSession 10 {} "w1" "s2" redeliveredCreateJob "c9"
        true true { store := terminatingStore }).2.store "s2").map
          Session.status = some .ready := by
  exact ⟨rfl, rfl⟩

/-- **C5** (counterexample).  The claim says that when the store publish
fails, `SessionRouter.publish` still invokes every local subscriber callback
before the error propagates.  On the code, the local dispatch sits after the
awaited `pubClient.publish` inside the same `try`, so a transport rejection
jumps straight to the rethrowing `catch`: subscriber `0` is registered for
the session, the error propagates, and no callback is invoked. -/
theorem c5_publish_failure_skips_local_delivery :
    (kvGet (SessionRouter.subscribe "s1" 0 {}).subscribers "s1" = some [0]) ∧
    SessionRouter.publishLocalDeliveries false
      (SessionRouter.subscribe "s1" 0 {}) "s1" = ([], true) := by
  exact ⟨rfl, rfl⟩

/-- **C5** (amended).  When the store publish fails, `publish` rethrows the
error to its caller and invokes no local subscriber callback for that
event. -/
theorem c5_amended_no_local_delivery_on_publish_failure
    (rs : SessionRouter.RouterState) (sessionId : String) :
    SessionRouter.publishLocalDeliveries false rs sessionId = ([], true) := by
  rfl

/-- **C6** (confirmed).  Both allocators scan the configured range linearly
from the low end: a returned port lies in the range, was free, every port of
the range below it was live, and its key is written with the 2-hour safety
TTL; the result is `none` exactly when every port of the range has a live
key. -/
theorem c6_port_allocation_first_free_with_lease (now : Nat) (cfg : Config)
    (st : Store) :
    (((SessionManager.allocateVncPort now cfg st).1 = none ↔
        ∀ p ∈ SessionManager.portRange cfg.vncPortRangeStart cfg.vncPortRangeEnd,
          (kvLive now st.vncPorts p).isSome) ∧
      ∀ p, (SessionManager.allocateVncPort now cfg st).1 = some p →
        cfg.vncPortRangeStart ≤ p ∧ p ≤ cfg.vncPortRangeEnd ∧
        (kvLive now st.vncPorts p).isNone ∧
        (∀ q, cfg.vncPortRangeStart ≤ q → q < p →
          (kvLive now st.vncPorts q).isSome) ∧
        (SessionManager.allocateVncPort now cfg st).2.vncPorts =
          kvSet st.vncPorts p ⟨(), some (now + 7200)⟩) ∧
    (((SessionManager.allocateMcpPort now cfg st).1 = none ↔
        ∀ p ∈ SessionManager.portRange cfg.mcpPortRangeStart cfg.mcpPortRangeEnd,
          (kvLive now st.mcpPorts p).isSome) ∧
      ∀ p, (SessionManager.allocateMcpPort now cfg st).1 = some p →
        cfg.mcpPortRangeStart ≤ p ∧ p ≤ cfg.mcpPortRangeEnd ∧
        (kvLive now st.mcpPorts p).isNone ∧
        (∀ q, cfg.mcpPortRangeStart ≤ q → q < p →
          (kvLive now st.mcpPorts q).isSome) ∧
        (SessionManager.allocateMcpPort now cfg st).2.mcpPorts =
          kvSet st.mcpPorts p ⟨(), some (now + 7200)⟩) := by
  constructor
  · constructor
    · simpa [SessionManager.allocateVncPort] using
        SessionManager.scanAllocate_none_iff now st.vncPorts
          (SessionManager.portRange cfg.vncPortRangeStart cfg.vncPortRangeEnd)
    · intro p hp
      have hp' : (SessionManager.scanAllocate now st.vncPorts
          (List.range' cfg.vncPortRangeStart
            (cfg.vncPortRangeEnd + 1 - cfg.vncPortRangeStart))).1 = some p := by
        simpa [SessionManager.allocateVncPort, SessionManager.portRange] using hp
      obtain ⟨h1, h2, h3, h4, h5⟩ :=
        SessionManager.scanAllocate_range_some now st.vncPorts
          (cfg.vncPortRangeEnd + 1 - cfg.vncPortRangeStart)
          cfg.vncPortRangeStart p hp'
      refine ⟨h1, by omega, h3, h4, ?_⟩
      simpa [SessionManager.allocateVncPort, SessionManager.portRange] using h5
  · constructor
    · simpa [SessionManager.allocateMcpPort] using
        SessionManager.scanAllocate_none_iff now st.mcpPorts
          (SessionManager.portRange cfg.mcpPortRangeStart cfg.mcpPortRangeEnd)
    · intro p hp
      have hp' : (SessionManager.scanAllocate now st.mcpPorts
          (List.range' cfg.mcpPortRangeStart
            (cfg.mcpPortRangeEnd + 1 - cfg.mcpPortRangeStart))).1 = some p := by
        simpa [SessionManager.allocateMcpPort, SessionManager.portRange] using hp
      obtain ⟨h1, h2, h3, h4, h5⟩ :=
        SessionManager.scanAllocate_range_some now st.mcpPorts
          (cfg.mcpPortRangeEnd + 1 - cfg.mcpPortRangeStart)
          cfg.mcpPortRangeStart p hp'
      refine ⟨h1, by omega, h3, h4, ?_⟩
      simpa [SessionManager.allocateMcpPort, SessionManager.portRange] using h5

/-- A small allocator state: desktop range 6080–6082 with 6080 held, tool
range 8080–8081 fully held. -/
def portStoreEx : Store :=
  { vncPorts := [(6080, ⟨(), some 100⟩)]
    mcpPorts := [(8080, ⟨(), some 100⟩), (8081, ⟨(), some 100⟩)] }

/-- Config for `portStoreEx`. -/
def portCfgEx : Config :=
  { vncPortRangeStart := 6080, vncPortRangeEnd := 6082
    mcpPortRangeStart := 8080, mcpPortRangeEnd := 8081 }

/-- Witness for C6: with 6080 held the desktop allocator hands out the
first free port 6081 (shown free by the theorem), and with the whole tool
range held the tool allocator yields `none`. -/
theorem c6_port_allocation_witness :
    (kvLive 0 portStoreEx.vncPorts 6081).isNone ∧
    (SessionManager.allocateMcpPort 0 portCfgEx portStoreEx).1 = none := by
  refine ⟨?_, ?_⟩
  · exact ((c6_port_allocation_first_free_with_lease 0 portCfgEx
      portStoreEx).1.2 6081 (by rfl)).2.2.1
  · exact ((c6_port_allocation_first_free_with_lease 0 portCfgEx
      portStoreEx).2.1).mpr (by decide)

/-- `attemptOk` unfolded: one loop iteration succeeds exactly when the
container is `running` and the HEAD request yielded a response of any
status code. -/
theorem ContainerManager.attemptOk_iff (pr : ContainerManager.Probe) :
    ContainerManager.attemptOk pr = true ↔
      pr.containerStatus = "running" ∧
        ∃ code, pr.fetch = .respond code := by
  cases hf : pr.fetch <;> simp [ContainerManager.attemptOk, hf]

/-- **C7** (confirmed).  `waitForVnc` with its default budget of 30 polls
(1 s apart) succeeds exactly when some attempt `i < 30` observes the
container running and gets an HTTP response of any status code to its HEAD
request; otherwise it throws the readiness-timeout error. -/
theorem c7_wait_for_vnc_any_response (probes : Nat → ContainerManager.Probe) :
    (ContainerManager.waitForVnc probes = .ok () ↔
      ∃ i, i < 30 ∧ (probes i).containerStatus = "running" ∧
        ∃ code, (probes i).fetch = .respond code) ∧
    (ContainerManager.waitForVnc probes =
        .error "VNC did not become ready in time" ↔
      ¬ ∃ i, i < 30 ∧ (probes i).containerStatus = "running" ∧
        ∃ code, (probes i).fetch = .respond code) := by
  have hunfold : ContainerManager.waitForVnc probes =
      ContainerManager.waitLoop probes 30 0 := rfl
  have hiff : ContainerManager.waitForVnc probes = .ok () ↔
      ∃ i, i < 30 ∧ (probes i).containerStatus = "running" ∧
        ∃ code, (probes i).fetch = .respond code := by
    rw [hunfold, ContainerManager.waitLoop_ok_iff]
    refine exists_congr fun j => and_congr_right fun _ => ?_
    rw [Nat.zero_add]
    exact ContainerManager.attemptOk_iff (probes j)
  refine ⟨hiff, ?_, ?_⟩
  · intro herr hsucc
    have := hiff.mpr hsucc
    rw [this] at herr
    exact Except.noConfusion herr
  · intro hne
    rw [hunfold]
    apply ContainerManager.waitLoop_error
    rw [← hunfold]
    intro hokk
    exact hne (hiff.mp hokk)

/-! ## Lemmas for the registry round trips -/

theorem kvLive_set_live [DecidableEq κ] (now : Nat) (l : List (κ × Keyed α))
    (k : κ) (v : α) (e : Nat) (h : now < e) :
    kvLive now (kvSet l k ⟨v, some e⟩) k = some v := by
  simp [kvLive, kvGet_kvSet_self, Keyed.live, h]

theorem ttlOf_set_live [DecidableEq κ] (now : Nat) (l : List (κ × Keyed α))
    (k : κ) (v : α) (e : Nat) (h : now < e) :
    ttlOf now (kvSet l k ⟨v, some e⟩) k = (e : Int) - (now : Int) := by
  simp [ttlOf, kvGet_kvSet_self, h]

theorem applyPatch_empty (s : Session) (now : Nat) :
    applyPatch s {} now = { s with updatedAt := now } := by
  rfl

theorem getSession_def (now : Nat) (st : Store) (id : String) :
    SessionManager.getSession now st id = kvLive now st.sessions (sessionKey id) := by
  rfl

namespace SessionManager

theorem updateSession_fst (tRead now : Nat) (sessionId : String)
    (patch : SessionPatch) (st : Store) (s : Session)
    (hget : getSession tRead st sessionId = some s) :
    (updateSession tRead now sessionId patch st).1 =
      some (applyPatch s patch now) := by
  unfold updateSession
  rw [hget]

theorem updateSession_sessions_of_pos (tRead now : Nat) (sessionId : String)
    (patch : SessionPatch) (st : Store) (s : Session)
    (hget : getSession tRead st sessionId = some s)
    (httl : 0 < ttlOf now st.sessions (sessionKey sessionId)) :
    (updateSession tRead now sessionId patch st).2.sessions =
      kvSet st.sessions (sessionKey sessionId)
        ⟨applyPatch s patch now,
         some (now + (ttlOf now st.sessions (sessionKey sessionId)).toNat)⟩ := by
  unfold updateSession
  rw [hget]
  simp only [if_pos httl]
  cases hw : patch.workerId with
  | none => rfl
  | some w =>
    by_cases hsame : some w = s.workerId
    · simp only [if_pos hsame]
    · simp only [if_neg hsame]

theorem updateSession_sessions_of_nonpos (tRead now : Nat) (sessionId : String)
    (patch : SessionPatch) (st : Store) (s : Session)
    (hget : getSession tRead st sessionId = some s)
    (httl : ¬ 0 < ttlOf now st.sessions (sessionKey sessionId)) :
    (updateSession tRead now sessionId patch st).2.sessions = st.sessions := by
  unfold updateSession
  rw [hget]
  simp only [if_neg httl]
  cases hw : patch.workerId with
  | none => rfl
  | some w =>
    by_cases hsame : some w = s.workerId
    · simp only [if_pos hsame]
    · simp only [if_neg hsame]

theorem updateSession_new_worker_member (tRead now : Nat) (sessionId : String)
    (patch : SessionPatch) (st : Store) (s : Session) (w : String)
    (hget : getSession tRead st sessionId = some s)
    (hw : patch.workerId = some w) (hne : ¬ some w = s.workerId) :
    sessionId ∈
      ((kvGet (updateSession tRead now sessionId patch st).2.byWorker w).getD []) := by
  unfold updateSession
  rw [hget]
  simp only [hw, if_neg hne]
  by_cases httl : 0 < ttlOf now st.sessions (sessionKey sessionId) <;>
    simp only [if_pos, if_neg, httl, if_true, if_false] <;>
    cases s.workerId <;>
    simp [kvGet_kvSet_self, mem_sAdd_self]

/-- `deleteSession` on a live record with no worker assignment removes
exactly the record key, the index entry and the three derived keys. -/
theorem deleteSession_spec (now : Nat) (id : String) (st : Store) (s : Session)
    (hget : getSession now st id = some s) (hw : s.workerId = none) :
    deleteSession now id st =
      (true,
       { st with
         sessions := kvDel st.sessions (sessionKey id)
         index := sRem st.index id
         messages := kvDel st.messages (messagesKey id)
         logs := kvDel st.logs (logsKey id)
         contextBlobs := kvDel st.contextBlobs (contextKey id) }) := by
  unfold deleteSession
  simp only [hget, hw]

end SessionManager

/-- **C8** (confirmed).  For a valid prompt, `createSession` followed by
`getSession`, an empty-patch `updateSession` and another `getSession` yields
records equal modulo `updatedAt` (provided the session has not yet reached
its expiry, which validation bounds to at least 300 s): the first read
returns the created record and the last read returns the same record with
only `updatedAt` moved to the update instant. -/
theorem c8_create_get_update_get_round_trip
    (t0 t1 t2 t3 : Nat) (cfg : Config) (sessionId prompt : String)
    (timeout : Option Nat) (st : Store)
    (hprompt1 : 1 ≤ prompt.length) (hprompt2 : prompt.length ≤ 5000)
    (h01 : t0 ≤ t1) (h12 : t1 ≤ t2) (h23 : t2 ≤ t3)
    (hlive : t3 < t0 + timeout.getD cfg.sessionTimeout) :
    SessionManager.getSession t1
        (SessionManager.createSession t0 cfg sessionId prompt timeout st).2 sessionId =
      some (SessionManager.createSession t0 cfg sessionId prompt timeout st).1 ∧
    (SessionManager.updateSession t2 t2 sessionId {}
        (SessionManager.createSession t0 cfg sessionId prompt timeout st).2).1 =
      some { (SessionManager.createSession t0 cfg sessionId prompt timeout st).1 with
             updatedAt := t2 } ∧
    SessionManager.getSession t3
        (SessionManager.updateSession t2 t2 sessionId {}
          (SessionManager.createSession t0 cfg sessionId prompt timeout st).2).2 sessionId =
      some { (SessionManager.createSession t0 cfg sessionId prompt timeout st).1 with
             updatedAt := t2 } := by
  have hT1 : t1 < t0 + timeout.getD cfg.sessionTimeout := by omega
  have hT2 : t2 < t0 + timeout.getD cfg.sessionTimeout := by omega
  have hsessions :
      (SessionManager.createSession t0 cfg sessionId prompt timeout st).2.sessions =
        kvSet st.sessions (sessionKey sessionId)
          ⟨(SessionManager.createSession t0 cfg sessionId prompt timeout st).1,
           some (t0 + timeout.getD cfg.sessionTimeout)⟩ := rfl
  have hget1 : SessionManager.getSession t1
      (SessionManager.createSession t0 cfg sessionId prompt timeout st).2 sessionId =
      some (SessionManager.createSession t0 cfg sessionId prompt timeout st).1 := by
    rw [getSession_def, hsessions]
    exact kvLive_set_live t1 st.sessions (sessionKey sessionId) _ _ hT1
  have hget2 : SessionManager.getSession t2
      (SessionManager.createSession t0 cfg sessionId prompt timeout st).2 sessionId =
      some (SessionManager.createSession t0 cfg sessionId prompt timeout st).1 := by
    rw [getSession_def, hsessions]
    exact kvLive_set_live t2 st.sessions (sessionKey sessionId) _ _ hT2
  have httl : ttlOf t2
      (SessionManager.createSession t0 cfg sessionId prompt timeout st).2.sessions
      (sessionKey sessionId) =
      ((t0 + timeout.getD cfg.sessionTimeout : Nat) : Int) - (t2 : Int) := by
    rw [hsessions]
    exact ttlOf_set_live t2 st.sessions (sessionKey sessionId) _ _ hT2
  have httlpos : 0 < ttlOf t2
      (SessionManager.createSession t0 cfg sessionId prompt timeout st).2.sessions
      (sessionKey sessionId) := by
    rw [httl]; omega
  have hfst := SessionManager.updateSession_fst t2 t2 sessionId {}
    (SessionManager.createSession t0 cfg sessionId prompt timeout st).2
    (SessionManager.createSession t0 cfg sessionId prompt timeout st).1 hget2
  rw [applyPatch_empty] at hfst
  have hsnd := SessionManager.updateSession_sessions_of_pos t2 t2 sessionId {}
    (SessionManager.createSession t0 cfg sessionId prompt timeout st).2
    (SessionManager.createSession t0 cfg sessionId prompt timeout st).1 hget2 httlpos
  rw [applyPatch_empty, httl] at hsnd
  have harith : t2 + (((t0 + timeout.getD cfg.sessionTimeout : Nat) : Int) -
      (t2 : Int)).toNat = t0 + timeout.getD cfg.sessionTimeout := by omega
  rw [harith] at hsnd
  refine ⟨hget1, hfst, ?_⟩
  rw [getSession_def, hsnd]
  exact kvLive_set_live t3 _ (sessionKey sessionId) _ _ hlive

/-- Witness for C8 at `t0, t1, t2, t3 = 0, 1, 2, 3`, prompt `"p"`, timeout
300 s, on the empty store: the final read returns the created record with
only `updatedAt` moved to 2. -/
theorem c8_round_trip_witness :
    SessionManager.getSession 3
        (SessionManager.updateSession 2 2 "a" {}
          (SessionManager.createSession 0 {} "a" "p" (some 300) {}).2).2 "a" =
      some { (SessionManager.createSession 0 {} "a" "p" (some 300) {}).1 with
             updatedAt := 2 } := by
  exact (c8_create_get_update_get_round_trip 0 1 2 3 {} "a" "p" (some 300) {}
    (by decide) (by decide) (by omega) (by omega) (by omega) (by decide)).2.2

/-- **C9** (confirmed).  When every desktop port in the configured range
has a live key, `POST /session` deletes the record it created earlier in the
same request and answers 503 with the store exactly as before the request:
no session record, index entry or derived stream for the fresh id remains,
and the `metrics:total_sessions` counter is not incremented. -/
theorem c9_post_desktop_exhaustion_rolls_back
    (now : Nat) (cfg : Config) (apiPort : Nat) (freshId : String)
    (body : CreateSessionRequest) (st : Store)
    (htimeout : 0 < body.timeout.getD cfg.sessionTimeout)
    (hs : kvGet st.sessions (sessionKey freshId) = none)
    (hi : freshId ∉ st.index)
    (hm : kvGet st.messages (messagesKey freshId) = none)
    (hl : kvGet st.logs (logsKey freshId) = none)
    (hc : kvGet st.contextBlobs (contextKey freshId) = none)
    (hfull : ∀ p ∈ SessionManager.portRange cfg.vncPortRangeStart cfg.vncPortRangeEnd,
      (kvLive now st.vncPorts p).isSome) :
    Routes.postSession now cfg apiPort freshId body st =
      (.unavailable "Service Unavailable" "No available VNC ports", st) := by
  have hsessions :
      (SessionManager.createSession now cfg freshId body.initialPrompt body.timeout st).2.sessions =
        kvSet st.sessions (sessionKey freshId)
          ⟨(SessionManager.createSession now cfg freshId body.initialPrompt body.timeout st).1,
           some (now + body.timeout.getD cfg.sessionTimeout)⟩ := rfl
  have hscan : (SessionManager.scanAllocate now st.vncPorts
      (SessionManager.portRange cfg.vncPortRangeStart cfg.vncPortRangeEnd)).1 = none :=
    (SessionManager.scanAllocate_none_iff now st.vncPorts _).mpr hfull
  have hscan2 := SessionManager.scanAllocate_none_snd now st.vncPorts
    (SessionManager.portRange cfg.vncPortRangeStart cfg.vncPortRangeEnd) hscan
  have halloc : SessionManager.allocateVncPort now cfg
      (SessionManager.createSession now cfg freshId body.initialPrompt body.timeout st).2 =
      (none, (SessionManager.createSession now cfg freshId body.initialPrompt body.timeout st).2) := by
    show ((SessionManager.scanAllocate now st.vncPorts
        (SessionManager.portRange cfg.vncPortRangeStart cfg.vncPortRangeEnd)).1,
      { (SessionManager.createSession now cfg freshId body.initialPrompt body.timeout st).2 with
        vncPorts := (SessionManager.scanAllocate now st.vncPorts
          (SessionManager.portRange cfg.vncPortRangeStart cfg.vncPortRangeEnd)).2 }) =
      (none, (SessionManager.createSession now cfg freshId body.initialPrompt body.timeout st).2)
    rw [hscan, hscan2]
    rfl
  have hnow : now < now + body.timeout.getD cfg.sessionTimeout := by omega
  have hgetc : SessionManager.getSession now
      (SessionManager.createSession now cfg freshId body.initialPrompt body.timeout st).2 freshId =
      some (SessionManager.createSession now cfg freshId body.initialPrompt body.timeout st).1 := by
    rw [getSession_def, hsessions]
    exact kvLive_set_live now st.sessions (sessionKey freshId) _ _ hnow
  have hdel := SessionManager.deleteSession_spec now freshId
    (SessionManager.createSession now cfg freshId body.initialPrompt body.timeout st).2
    (SessionManager.createSession now cfg freshId body.initialPrompt body.timeout st).1
    hgetc rfl
  have hfield1 : kvDel
      (SessionManager.createSession now cfg freshId body.initialPrompt body.timeout st).2.sessions
      (sessionKey freshId) = st.sessions := by
    rw [hsessions, kvDel_kvSet_of_get_none _ _ _ hs, kvDel_of_get_none _ _ hs]
  have hfield2 : sRem
      (SessionManager.createSession now cfg freshId body.initialPrompt body.timeout st).2.index
      freshId = st.index := by
    show sRem (sAdd st.index freshId) freshId = st.index
    exact sRem_sAdd_of_not_mem st.index freshId hi
  have hfield3 : kvDel
      (SessionManager.createSession now cfg freshId body.initialPrompt body.timeout st).2.messages
      (messagesKey freshId) = st.messages := by
    show kvDel st.messages (messagesKey freshId) = st.messages
    exact kvDel_of_get_none _ _ hm
  have hfield4 : kvDel
      (SessionManager.createSession now cfg freshId body.initialPrompt body.timeout st).2.logs
      (logsKey freshId) = st.logs := by
    show kvDel st.logs (logsKey freshId) = st.logs
    exact kvDel_of_get_none _ _ hl
  have hfield5 : kvDel
      (SessionManager.createSession now cfg freshId body.initialPrompt body.timeout st).2.contextBlobs
      (contextKey freshId) = st.contextBlobs := by
    show kvDel st.contextBlobs (contextKey freshId) = st.contextBlobs
    exact kvDel_of_get_none _ _ hc
  have hdelstore : (SessionManager.deleteSession now freshId
      (SessionManager.createSession now cfg freshId body.initialPrompt body.timeout st).2).2 =
      st := by
    rw [hdel]
    show ({ (SessionManager.createSession now cfg freshId body.initialPrompt body.timeout st).2 with
      sessions := kvDel (SessionManager.createSession now cfg freshId body.initialPrompt body.timeout st).2.sessions (sessionKey freshId)
      index := sRem (SessionManager.createSession now cfg freshId body.initialPrompt body.timeout st).2.index freshId
      messages := kvDel (SessionManager.createSession now cfg freshId body.initialPrompt body.timeout st).2.messages (messagesKey freshId)
      logs := kvDel (SessionManager.createSession now cfg freshId body.initialPrompt body.timeout st).2.logs (logsKey freshId)
      contextBlobs := kvDel (SessionManager.createSession now cfg freshId body.initialPrompt body.timeout st).2.contextBlobs (contextKey freshId) } : Store) = st
    rw [hfield1, hfield2, hfield3, hfield4, hfield5]
    rfl
  have hpost : Routes.postSession now cfg apiPort freshId body st =
      (.unavailable "Service Unavailable" "No available VNC ports",
       (SessionManager.deleteSession now freshId
         (SessionManager.createSession now cfg freshId body.initialPrompt body.timeout st).2).2) := by
    simp only [Routes.postSession]
    rw [halloc]
    rfl
  rw [hpost, hdelstore]

/-- Witness for C9: desktop range `[6080, 6080]` with 6080 held, fresh id
`n1`, empty registry: the POST answers 503 and the store is unchanged. -/
theorem c9_rollback_witness :
    Routes.postSession 0
        { vncPortRangeStart := 6080, vncPortRangeEnd := 6080 } 3000 "n1"
        { initialPrompt := "hi" }
        { vncPorts := [(6080, ⟨(), some 100⟩)] } =
      (.unavailable "Service Unavailable" "No available VNC ports",
       { vncPorts := [(6080, ⟨(), some 100⟩)] }) := by
  exact c9_post_desktop_exhaustion_rolls_back 0
    { vncPortRangeStart := 6080, vncPortRangeEnd := 6080 } 3000 "n1"
    { initialPrompt := "hi" } { vncPorts := [(6080, ⟨(), some 100⟩)] }
    (by decide) rfl (by decide) rfl rfl rfl (by decide)

/-- **C10** (confirmed).  Whenever the session record is readable,
`updateSession` returns the patched record; it persists it only when the
TTL read is positive — on a non-positive TTL the write is skipped and the
stored bindings are untouched — and a new worker assignment is recorded in
the worker's set in either case. -/
theorem c10_update_returns_patched_persists_only_live
    (tRead now : Nat) (sessionId : String) (patch : SessionPatch) (st : Store)
    (s : Session) (hget : SessionManager.getSession tRead st sessionId = some s) :
    (SessionManager.updateSession tRead now sessionId patch st).1 =
      some (applyPatch s patch now) ∧
    (¬ 0 < ttlOf now st.sessions (sessionKey sessionId) →
      (SessionManager.updateSession tRead now sessionId patch st).2.sessions =
        st.sessions) ∧
    (0 < ttlOf now st.sessions (sessionKey sessionId) →
      (SessionManager.updateSession tRead now sessionId patch st).2.sessions =
        kvSet st.sessions (sessionKey sessionId)
          ⟨applyPatch s patch now,
           some (now + (ttlOf now st.sessions (sessionKey sessionId)).toNat)⟩) ∧
    (∀ w, patch.workerId = some w → ¬ some w = s.workerId →
      sessionId ∈
        ((kvGet (SessionManager.updateSession tRead now sessionId patch st).2.byWorker
          w).getD [])) := by
  refine ⟨SessionManager.updateSession_fst tRead now sessionId patch st s hget,
    fun h => SessionManager.updateSession_sessions_of_nonpos tRead now sessionId patch st s hget h,
    fun h => SessionManager.updateSession_sessions_of_pos tRead now sessionId patch st s hget h,
    fun w hw hne =>
      SessionManager.updateSession_new_worker_member tRead now sessionId patch st s w hget hw hne⟩

/-- The session and store used by the C10 witness: the record is readable
at instant 0 but its key expires at instant 5, before the TTL read at
instant 10. -/
def expiringSession : Session :=
  { id := "a", status := .ready, initialPrompt := "p",
    workerId := some "w0", createdAt := 0, updatedAt := 0, expiresAt := 5 }

/-- Store for the C10 witness. -/
def expiringStore : Store :=
  { sessions := [("session:a", ⟨expiringSession, some 5⟩)]
    byWorker := [("w0", ["a"])] }

/-- Witness for C10 in the skip-write branch: read at 0, TTL read at 10
(past the expiry), patching the worker id — the caller receives the patched
record, the stored bindings stay as they were, and the new worker's set
gains the session. -/
theorem c10_skip_write_witness :
    (SessionManager.updateSession 0 10 "a" { workerId := some "w1" }
      expiringStore).1 =
      some (applyPatch expiringSession { workerId := some "w1" } 10) ∧
    (SessionManager.updateSession 0 10 "a" { workerId := some "w1" }
      expiringStore).2.sessions = expiringStore.sessions ∧
    "a" ∈ ((kvGet (SessionManager.updateSession 0 10 "a"
      { workerId := some "w1" } expiringStore).2.byWorker "w1").getD []) := by
  have h := c10_update_returns_patched_persists_only_live 0 10 "a"
    { workerId := some "w1" } expiringStore expiringSession (by rfl)
  exact ⟨h.1, h.2.1 (by decide), h.2.2.2 "w1" rfl (by decide)⟩

end Ottobot
